import Mathlib

/-!
Shallow embedding of the post-resolution control flow of
`listenbrainz-playlist-uploader` (`src/main.rs`).

External effects (network calls issued by the program) are recorded as
`Action` values; results of fallible external calls are supplied as
`Except`-valued oracle arguments.  Floating-point (`f64`) values are
modelled by exact rationals `ℚ`, and a conversion that can fail
(`ToPrimitive::to_f64`) by an `Option ℚ`-valued function.
-/

namespace ListenBrainzUploader

/-- A playlist as returned by the playlist listing
(`get_current_playlists`): identifier and title are all `main.rs` reads. -/
structure ExistingPlaylist where
  identifier : String
  title : String
deriving Repr, DecidableEq

/-- Modelled from the spec: `ExistingPlaylist` detail record (identifier,
title, track count) produced by
`FullExistingPlaylistResponse::convert_simple_playlist_response_to_full`,
whose definition lives in the (absent) `playlist` module; `main.rs` reads
its `identifier` and `number_of_tracks` fields. -/
structure FullExistingPlaylist where
  identifier : String
  number_of_tracks : Nat
deriving Repr, DecidableEq

/-- The `DuplicateAction` CLI enum of `main.rs`. -/
inductive DuplicateAction where
  | none
  | overwrite
  | number
  | abort
deriving Repr, DecidableEq

/-- Modelled from the spec: the externally visible mutating / submitting
calls of the `CatalogClient` capability (`createPlaylist`, `deleteRange`,
`insertTracks`, `submitFeedback`), which `main.rs` reaches through
`playlist::submit_playlist`, `delete_items_from_playlist`,
`mass_add_to_playlist` and `feedback::give_song_feedback_for_mbid`.
A run is summarised by the list of such actions it issued. -/
inductive Action where
  | createPlaylist (name : String) (ids : List String) (isPublic : Bool)
  | deleteRange (playlistId : String) (startIndex count : Nat)
  | insertTracks (playlistId : String) (ids : List String)
  | submitFeedback (id : String)
deriving Repr, DecidableEq

/-- How the modelled slice of `main` ends: a `std::process::exit(code)`,
a panic (`expect` / `unwrap` on a failed value), normal completion, or
divergence (a loop that never exits within the supplied fuel). -/
inductive RunOutcome where
  | exited (code : Nat)
  | panicked
  | completed
  | diverged
deriving Repr, DecidableEq

/-- `calculate_percentage` of `main.rs`, generic over `T : ToPrimitive`;
the conversion `to_f64` is passed explicitly and `f64` values are modelled
by exact rationals. Mirrors the source `match` with its `second != 0.0`
guard falling through to `None`. -/
def calculate_percentage {T : Type} (to_f64 : T → Option ℚ)
    (numerator denominator : T) : Option ℚ :=
  match to_f64 numerator, to_f64 denominator with
  | some first, some second =>
      if second ≠ 0 then some (first / second * 100) else Option.none
  | _, _ => Option.none

/-- Conversion `usize -> f64` (`ToPrimitive::to_f64` on `usize` always
succeeds); used where `main.rs` passes `&usize` lengths. -/
def usize_to_f64 (n : Nat) : Option ℚ :=
  some (n : ℚ)

/-- The `DuplicateAction::Overwrite` branch of `main` (lines 199-232).
`deleteResult` and `insertResult` are the outcomes of the external
`delete_items_from_playlist` and `mass_add_to_playlist` calls.  Note the
source passes `p.number_of_tracks + 1` as the count of the delete call. -/
def overwriteBranch (p : FullExistingPlaylist) (musicbrainz_ids : List String)
    (deleteResult insertResult : Except String Unit) : List Action × RunOutcome :=
  if p.number_of_tracks > 0 then
    let deleteAction := Action.deleteRange p.identifier 0 (p.number_of_tracks + 1)
    match deleteResult with
    | .error _ => ([deleteAction], .exited 1)
    | .ok _ =>
        match insertResult with
        | .ok _ => ([deleteAction, Action.insertTracks p.identifier musicbrainz_ids], .completed)
        | .error _ => ([deleteAction, Action.insertTracks p.identifier musicbrainz_ids], .exited 1)
  else
    match insertResult with
    | .ok _ => ([Action.insertTracks p.identifier musicbrainz_ids], .completed)
    | .error _ => ([Action.insertTracks p.identifier musicbrainz_ids], .exited 1)

/-- One candidate title of the `DuplicateAction::Number` loop:
`format!("{}_{}", args.playlist_name, i)`. -/
def prospectiveTitle (target : String) (i : Nat) : String :=
  target ++ "_" ++ toString i

/-- The `for i in 1..` loop of the `DuplicateAction::Number` branch
(lines 234-243), run for `fuel` iterations starting at counter `i` with
current mutable `playlist_name` value `name`.  Returns `some finalName`
if the loop exits within `fuel` iterations and `none` if it is still
running.  The loop body only ever executes `continue` or assigns
`playlist_name` and proceeds to the next `i`; it contains no `break`, so
no branch of this function ever produces `some`. -/
def numberLoop (current_playlists : List ExistingPlaylist) (target : String) :
    Nat → String → Nat → Option String
  | _, _, 0 => Option.none
  | i, name, fuel + 1 =>
      let prospective := prospectiveTitle target i
      let name' :=
        if current_playlists.any (fun p => p.title == prospective) then name
        else prospective
      numberLoop current_playlists target (i + 1) name' fuel

/-- The value of the mutable `playlist_name` variable after the
`DuplicateAction::Number` loop has run for `fuel` iterations (same body
as `numberLoop`, observing the state instead of the exit). -/
def numberLoopName (current_playlists : List ExistingPlaylist) (target : String) :
    Nat → String → Nat → String
  | _, name, 0 => name
  | i, name, fuel + 1 =>
      let prospective := prospectiveTitle target i
      let name' :=
        if current_playlists.any (fun p => p.title == prospective) then name
        else prospective
      numberLoopName current_playlists target (i + 1) name' fuel

/-- The playlist-reconciliation section of `main` (lines 161-256):
fetch the existing playlists, search for one whose title equals the
target exactly, and either create a new playlist (no duplicate) or enact
the duplicate policy.  `playlistsResult` is the outcome of
`get_current_playlists`, `detailResult` the outcome of the detail fetch
for a found duplicate; `submit_new_playlist` logs any creation failure
without exiting, so the creation call is recorded unconditionally. -/
def reconcile (playlistsResult : Except String (List ExistingPlaylist))
    (detailResult : Except String FullExistingPlaylist)
    (duplicate_action : DuplicateAction) (playlist_name : String)
    (musicbrainz_ids : List String) (isPublic : Bool)
    (deleteResult insertResult : Except String Unit) (fuel : Nat) :
    List Action × RunOutcome :=
  match playlistsResult with
  | .error _ => ([], .exited 1)
  | .ok current_playlists =>
    match current_playlists.find? (fun p => p.title == playlist_name) with
    | some _ =>
      match detailResult with
      | .error _ => ([], .exited 1)
      | .ok p =>
        match duplicate_action with
        | .none =>
            ([Action.createPlaylist playlist_name musicbrainz_ids isPublic], .completed)
        | .overwrite => overwriteBranch p musicbrainz_ids deleteResult insertResult
        | .number =>
            match numberLoop current_playlists playlist_name 1 playlist_name fuel with
            | some finalName =>
                ([Action.createPlaylist finalName musicbrainz_ids isPublic], .completed)
            | Option.none => ([], .diverged)
        | .abort => ([], .exited 1)
    | Option.none =>
        ([Action.createPlaylist playlist_name musicbrainz_ids isPublic], .completed)

/-- `main` from the resolution stage onward (lines 133-256): compute the
resolved percentage (`expect` panics if it is `None`), run the optional
confirmation prompt (`confirmAnswer`: `some true` = user confirmed,
`some false` = user declined, `none` = prompt error, which only logs),
then reconcile.  There is no check that `musicbrainz_ids` is nonempty. -/
def mainAfterResolution (number_of_tagged_songs : Nat) (musicbrainz_ids : List String)
    (no_confirm : Bool) (confirmAnswer : Option Bool)
    (playlistsResult : Except String (List ExistingPlaylist))
    (detailResult : Except String FullExistingPlaylist)
    (duplicate_action : DuplicateAction) (playlist_name : String) (isPublic : Bool)
    (deleteResult insertResult : Except String Unit) (fuel : Nat) :
    List Action × RunOutcome :=
  match calculate_percentage usize_to_f64 musicbrainz_ids.length number_of_tagged_songs with
  | Option.none => ([], .panicked)
  | some _ =>
    let proceed :=
      reconcile playlistsResult detailResult duplicate_action playlist_name
        musicbrainz_ids isPublic deleteResult insertResult fuel
    if !no_confirm then
      match confirmAnswer with
      | some true => proceed
      | some false => ([], .exited 1)
      | Option.none => proceed
    else proceed

/-- `resolve_all_songs_for_mbids` of `main.rs` (lines 341-375): run the
per-item lookup over every tag record and keep exactly the successes
(`filter_map` over `Ok`).  `lookup` stands for the external
`audio_data::get_musicbrainz_id_for_audio_data` call; concurrency only
permutes completion order, which a list model keeps fixed. -/
def resolve_all_songs_for_mbids {α : Type} (lookup : α → Except String String)
    (song_data : List α) : List String :=
  (song_data.map lookup).filterMap fun result =>
    match result with
    | .ok s => some s
    | .error _ => Option.none

/-- Whether a per-item resolution outcome is a failure. -/
def isLookupFailure (result : Except String String) : Bool :=
  match result with
  | .ok _ => false
  | .error _ => true

/-- How the feedback branch of `main` ends. -/
inductive FeedbackOutcome where
  | panicked
  | noOpAllCorrect
  | submitted (ids : List String)
deriving Repr, DecidableEq

/-- The feedback branch of `main` (lines 258-285) for `Some(feedback)`:
filter the resolved ids to those without the requested feedback, compute
the percentage (`.unwrap()` panics when it is `None`, i.e. when the total
is zero), exit 0 as a distinct no-op when nothing is left, otherwise
submit feedback for exactly the filtered ids
(`give_feedback_on_all_songs`, whose per-item failures only log). -/
def feedbackBranch (musicbrainz_ids given_feedback : List String) :
    FeedbackOutcome × List Action :=
  let filtered_musicbrainz_ids :=
    musicbrainz_ids.filter fun i => !given_feedback.contains i
  let filtered_len := filtered_musicbrainz_ids.length
  let total_len := musicbrainz_ids.length
  match calculate_percentage usize_to_f64 filtered_len total_len with
  | Option.none => (.panicked, [])
  | some _ =>
    if filtered_len = 0 then
      (.noOpAllCorrect, [])
    else
      (.submitted filtered_musicbrainz_ids,
        filtered_musicbrainz_ids.map Action.submitFeedback)

/-- Concrete existing-playlist list of the `Number`-policy scenario:
titles `X`, `X_1`, `X_2`. -/
def exampleDuplicateLists : List ExistingPlaylist :=
  [⟨"p0", "X"⟩, ⟨"p1", "X_1"⟩, ⟨"p2", "X_2"⟩]

/-- Concrete per-item lookup for the resolution-stage scenario: the
records `0, 1, 2` fail to resolve, every other record resolves. -/
def exampleLookup (n : Nat) : Except String String :=
  if n < 3 then .error "no match" else .ok (toString n)

section Theorems

/-- The `Number`-policy loop body never exits: whatever the fuel, the
starting counter and the current name, `numberLoop` reports the loop as
still running (the source loop has no break). -/
theorem numberLoop_eq_none (current_playlists : List ExistingPlaylist) (target : String) :
    ∀ (fuel i : Nat) (name : String),
      numberLoop current_playlists target i name fuel = Option.none := by
  intro fuel
  induction fuel with
  | zero => intro i name; rfl
  | succ n ih =>
      intro i name
      simp only [numberLoop]
      exact ih (i + 1) _

/-- Splitting a list of per-item outcomes into successes and failures
loses nothing: the successes kept by `filterMap` and the failures counted
by `isLookupFailure` partition the list. -/
theorem length_filterMap_ok_add_failures (l : List (Except String String)) :
    (l.filterMap fun result =>
        match result with
        | .ok s => some s
        | .error _ => Option.none).length
      + l.countP isLookupFailure = l.length := by
  induction l with
  | nil => rfl
  | cons h t ih =>
      cases h <;>
        simp [List.filterMap_cons, List.countP_cons, isLookupFailure] <;>
        omega

/-- C10: `calculate_percentage` is total and never divides by zero: it
returns `some ((numerator / denominator) * 100)` exactly when both
arguments convert to `f64` and the converted denominator is nonzero, and
`none` otherwise — in particular whenever the denominator converts to 0
or either conversion fails. -/
theorem calculate_percentage_never_divides_by_zero {T : Type} (to_f64 : T → Option ℚ)
    (numerator denominator : T) :
    (∀ a b, to_f64 numerator = some a → to_f64 denominator = some b → b ≠ 0 →
        calculate_percentage to_f64 numerator denominator = some (a / b * 100))
    ∧ ((calculate_percentage to_f64 numerator denominator).isSome
        ↔ ∃ a b, to_f64 numerator = some a ∧ to_f64 denominator = some b ∧ b ≠ 0)
    ∧ (to_f64 denominator = some 0 →
        calculate_percentage to_f64 numerator denominator = Option.none)
    ∧ (to_f64 numerator = Option.none ∨ to_f64 denominator = Option.none →
        calculate_percentage to_f64 numerator denominator = Option.none) := by
  refine ⟨?_, ?_, ?_, ?_⟩
  · intro a b ha hb hb0
    simp [calculate_percentage, ha, hb, hb0]
  · rcases hn : to_f64 numerator with _ | a
    · simp [calculate_percentage, hn]
    · rcases hd : to_f64 denominator with _ | b
      · simp [calculate_percentage, hn, hd]
      · by_cases hb0 : b = 0
        · simp [calculate_percentage, hn, hd, hb0]
        · simp only [calculate_percentage, hn, hd, if_pos hb0, ne_eq,
            Option.isSome_some, true_iff, Option.some.injEq]
          exact ⟨a, b, rfl, rfl, hb0⟩
  · intro hd
    unfold calculate_percentage
    rcases hn : to_f64 numerator with _ | a <;> simp [hd]
  · rintro (hn | hd)
    · simp [calculate_percentage, hn]
    · unfold calculate_percentage
      rcases hn : to_f64 numerator with _ | a <;> simp [hd]

/-- Witness for C10 at `T = usize`: `3` and `4` both convert, the
denominator is nonzero, and the percentage is `3 / 4 * 100`. -/
theorem calculate_percentage_never_divides_by_zero_witness :
    calculate_percentage usize_to_f64 3 4 = some (((3 : Nat) : ℚ) / ((4 : Nat) : ℚ) * 100) :=
  (calculate_percentage_never_divides_by_zero usize_to_f64 3 4).1 _ _ rfl rfl (by norm_num)

/-- C7: every input to the resolution stage yields exactly one per-item
outcome, so kept successes plus counted failures equal the number of
inputs; the output is exactly the success values; concretely, on 10
records of which the 3 records `0, 1, 2` fail, exactly 7 ids come back. -/
theorem resolution_partitions_inputs {α : Type} (lookup : α → Except String String)
    (song_data : List α) :
    ((resolve_all_songs_for_mbids lookup song_data).length
        + (song_data.map lookup).countP isLookupFailure = song_data.length)
    ∧ (∀ s, s ∈ resolve_all_songs_for_mbids lookup song_data
        ↔ Except.ok s ∈ song_data.map lookup)
    ∧ (resolve_all_songs_for_mbids exampleLookup (List.range 10)).length = 7 := by
  refine ⟨?_, ?_, by decide⟩
  · have h := length_filterMap_ok_add_failures (song_data.map lookup)
    simpa [resolve_all_songs_for_mbids] using h
  · intro s
    simp only [resolve_all_songs_for_mbids, List.mem_filterMap]
    constructor
    · rintro ⟨r, hr, h⟩
      cases r with
      | ok v =>
          simp only [Option.some.injEq] at h
          exact h ▸ hr
      | error _ => simp at h
    · intro h
      exact ⟨.ok s, h, rfl⟩

/-- C8 counterexample: with an empty resolved-id list the filtered set is
empty, yet the feedback branch is not a graceful no-op — the percentage
`unwrap` panics (`calculate_percentage` returns `None` for total 0),
refuting "treated as a distinct no-op, not an error" as universally
stated. -/
theorem feedback_empty_input_panics :
    (([] : List String).filter (fun i => !([] : List String).contains i) = [])
    ∧ feedbackBranch [] [] = (.panicked, []) := by
  constructor <;> rfl

/-- C8 amended: the feedback branch filters the resolved ids to those not
already recorded and submits exactly the filtered list (for
`a, b, c` minus `b` exactly `a, c`); when the input list is nonempty and
the filtered list is empty it performs no submission and is a distinct
no-op (exit 0); the submitted actions are always exactly the filtered
ids. (With an empty input list the percentage `unwrap` panics instead.) -/
theorem feedback_filters_and_noop (ids given : List String) (hne : ids ≠ []) :
    (feedbackBranch ["a", "b", "c"] ["b"]
        = (.submitted ["a", "c"], [Action.submitFeedback "a", Action.submitFeedback "c"]))
    ∧ ((ids.filter fun i => !given.contains i) = [] →
        feedbackBranch ids given = (.noOpAllCorrect, []))
    ∧ ((feedbackBranch ids given).2
        = (ids.filter fun i => !given.contains i).map Action.submitFeedback) := by
  have htot : ((ids.length : Nat) : ℚ) ≠ 0 := by
    have h0 : ids.length ≠ 0 := fun h => hne (List.length_eq_zero.mp h)
    exact_mod_cast h0
  have hpct : calculate_percentage usize_to_f64
      (ids.filter fun i => !given.contains i).length ids.length
      = some (((ids.filter fun i => !given.contains i).length : ℚ) / (ids.length : ℚ) * 100) := by
    simp [calculate_percentage, usize_to_f64, htot]
  have hfb : feedbackBranch ids given =
      (if (ids.filter fun i => !given.contains i).length = 0 then (.noOpAllCorrect, [])
       else (.submitted (ids.filter fun i => !given.contains i),
         (ids.filter fun i => !given.contains i).map Action.submitFeedback)) := by
    unfold feedbackBranch
    dsimp only
    rw [hpct]
  refine ⟨by decide, ?_, ?_⟩
  · intro hflt
    rw [hfb, if_pos (by rw [hflt]; rfl)]
  · rw [hfb]
    by_cases hlen : (ids.filter fun i => !given.contains i).length = 0
    · rw [if_pos hlen]
      have hnil : (ids.filter fun i => !given.contains i) = [] := List.length_eq_zero.mp hlen
      rw [hnil]
      rfl
    · rw [if_neg hlen]

/-- Witness for C8: with ids and already-recorded set both `b`, the
filtered set is empty and the branch is the distinct no-op. -/
theorem feedback_filters_and_noop_witness :
    feedbackBranch ["b"] ["b"] = (.noOpAllCorrect, []) :=
  (feedback_filters_and_noop ["b"] ["b"] (by decide)).2.1 (by decide)

/-- C2 counterexample: for a duplicate playlist with 2 tracks the claim
demands one bulk delete removing exactly 2 items (count 2); the code
issues the delete with count `number_of_tracks + 1 = 3`, so the issued
trace is not the claimed one. -/
theorem overwrite_delete_count_off_by_one :
    ((overwriteBranch ⟨"pl", 2⟩ ["a", "b"] (.ok ()) (.ok ())).1
        = [Action.deleteRange "pl" 0 3, Action.insertTracks "pl" ["a", "b"]])
    ∧ (overwriteBranch ⟨"pl", 2⟩ ["a", "b"] (.ok ()) (.ok ())).1
        ≠ [Action.deleteRange "pl" 0 2, Action.insertTracks "pl" ["a", "b"]] := by
  constructor <;> decide

/-- C2 amended: with `Overwrite` and a duplicate playlist whose track
count is greater than 0, when both calls succeed the reconciler issues
exactly one bulk delete call with start index 0 and count
`trackCount + 1` (one more than the track count), followed by exactly
one insert of all resolved ids. -/
theorem overwrite_single_delete_then_insert (p : FullExistingPlaylist)
    (musicbrainz_ids : List String) (h : 0 < p.number_of_tracks) :
    overwriteBranch p musicbrainz_ids (.ok ()) (.ok ())
      = ([Action.deleteRange p.identifier 0 (p.number_of_tracks + 1),
          Action.insertTracks p.identifier musicbrainz_ids], .completed) := by
  simp [overwriteBranch, h]

/-- Witness for C2's amended theorem at a 2-track duplicate. -/
theorem overwrite_single_delete_then_insert_witness :
    overwriteBranch ⟨"pl", 2⟩ ["a"] (.ok ()) (.ok ())
      = ([Action.deleteRange "pl" 0 3, Action.insertTracks "pl" ["a"]], .completed) :=
  overwrite_single_delete_then_insert ⟨"pl", 2⟩ ["a"] (by decide)

/-- C4: under `Overwrite`, a failing delete ends the run with exit
code 1 after only the delete call; a failing insert ends it with exit
code 1 after only the delete (if any) and the insert; and for every
combination of call outcomes the branch never issues a playlist-creation
call. -/
theorem overwrite_failures_are_fatal (p q : FullExistingPlaylist)
    (musicbrainz_ids : List String) (e e' e'' : String) (ir : Except String Unit)
    (hp : 0 < p.number_of_tracks) (hq : q.number_of_tracks = 0) :
    (overwriteBranch p musicbrainz_ids (.error e) ir
        = ([Action.deleteRange p.identifier 0 (p.number_of_tracks + 1)], .exited 1))
    ∧ (overwriteBranch p musicbrainz_ids (.ok ()) (.error e')
        = ([Action.deleteRange p.identifier 0 (p.number_of_tracks + 1),
            Action.insertTracks p.identifier musicbrainz_ids], .exited 1))
    ∧ (overwriteBranch q musicbrainz_ids (.ok ()) (.error e'')
        = ([Action.insertTracks q.identifier musicbrainz_ids], .exited 1))
    ∧ (∀ (nm : String) (ids2 : List String) (pb : Bool) (dr ir2 : Except String Unit),
        Action.createPlaylist nm ids2 pb ∉ (overwriteBranch p musicbrainz_ids dr ir2).1
        ∧ Action.createPlaylist nm ids2 pb ∉ (overwriteBranch q musicbrainz_ids dr ir2).1) := by
  refine ⟨by simp [overwriteBranch, hp], by simp [overwriteBranch, hp],
    by simp [overwriteBranch, hq], ?_⟩
  intro nm ids2 pb dr ir2
  constructor <;> (cases dr <;> cases ir2 <;> simp [overwriteBranch, hp, hq])

/-- Witness for C4: a failing delete on a 1-track duplicate exits with
code 1 having issued only the delete call. -/
theorem overwrite_failures_are_fatal_witness :
    overwriteBranch ⟨"pl", 1⟩ ["a"] (.error "boom") (.ok ())
      = ([Action.deleteRange "pl" 0 2], .exited 1) :=
  (overwrite_failures_are_fatal ⟨"pl", 1⟩ ⟨"ql", 0⟩ ["a"] "boom" "e2" "e3" (.ok ())
    (by decide) rfl).1

/-- C5: with `Overwrite` and a duplicate playlist of track count 0, the
reconciler issues no delete call (for any call outcomes) and proceeds
directly to the single insert of the resolved ids into the existing
playlist. -/
theorem overwrite_zero_tracks_skips_delete (q : FullExistingPlaylist)
    (musicbrainz_ids : List String) (dr ir : Except String Unit)
    (hq : q.number_of_tracks = 0) :
    (overwriteBranch q musicbrainz_ids dr (.ok ())
        = ([Action.insertTracks q.identifier musicbrainz_ids], .completed))
    ∧ (∀ (s : String) (a b : Nat),
        Action.deleteRange s a b ∉ (overwriteBranch q musicbrainz_ids dr ir).1) := by
  constructor
  · cases dr <;> simp [overwriteBranch, hq]
  · intro s a b
    cases dr <;> cases ir <;> simp [overwriteBranch, hq]

/-- Witness for C5: a 0-track duplicate yields exactly one insert call
and no delete. -/
theorem overwrite_zero_tracks_skips_delete_witness :
    overwriteBranch ⟨"ql", 0⟩ ["a", "b"] (.ok ()) (.ok ())
      = ([Action.insertTracks "ql" ["a", "b"]], .completed) :=
  (overwrite_zero_tracks_skips_delete ⟨"ql", 0⟩ ["a", "b"] (.ok ()) (.ok ()) rfl).1

/-- C1: at the claimed scenario (existing titles `X`, `X_1`, `X_2`,
target `X`, policy `Number`) the reconciler does not terminate and never
creates a playlist named `X_3`: for every amount of fuel the branch is
still looping with no action issued, because the mutable name reaches
`X_3` after three iterations but the loop has no break and overwrites it
with `X_4`, `X_5`, and so on, forever. -/
theorem number_policy_never_terminates :
    (∀ fuel : Nat,
        reconcile (.ok exampleDuplicateLists) (.ok ⟨"p0", 3⟩) .number "X" ["m1"] false
          (.ok ()) (.ok ()) fuel = ([], .diverged))
    ∧ numberLoopName exampleDuplicateLists "X" 1 "X" 3 = "X_3"
    ∧ numberLoopName exampleDuplicateLists "X" 1 "X" 4 = "X_4"
    ∧ numberLoopName exampleDuplicateLists "X" 1 "X" 5 = "X_5" := by
  refine ⟨?_, by decide, by decide, by decide⟩
  intro fuel
  simp [reconcile, exampleDuplicateLists, numberLoop_eq_none]

/-- C6: whenever no existing playlist's title equals the target name
under exact string equality, the reconciler creates a new playlist with
the target name, the resolved ids and the given visibility, whatever the
duplicate policy and whatever the call-outcome oracles. -/
theorem no_exact_title_match_always_creates (current_playlists : List ExistingPlaylist)
    (detailResult : Except String FullExistingPlaylist) (duplicate_action : DuplicateAction)
    (playlist_name : String) (musicbrainz_ids : List String) (isPublic : Bool)
    (deleteResult insertResult : Except String Unit) (fuel : Nat)
    (hno : ∀ p ∈ current_playlists, p.title ≠ playlist_name) :
    reconcile (.ok current_playlists) detailResult duplicate_action playlist_name
        musicbrainz_ids isPublic deleteResult insertResult fuel
      = ([Action.createPlaylist playlist_name musicbrainz_ids isPublic], .completed) := by
  have hfind : current_playlists.find? (fun p => p.title == playlist_name) = Option.none := by
    rw [List.find?_eq_none]
    intro p hp
    simpa using hno p hp
  simp [reconcile, hfind]

/-- Witness for C6: one existing playlist titled `Y`, target `X`, policy
`Abort` — still a plain creation of `X`. -/
theorem no_exact_title_match_always_creates_witness :
    reconcile (.ok [⟨"q0", "Y"⟩]) (.ok ⟨"q0", 4⟩) .abort "X" ["m1"] true
        (.ok ()) (.ok ()) 0
      = ([Action.createPlaylist "X" ["m1"] true], .completed) :=
  no_exact_title_match_always_creates [⟨"q0", "Y"⟩] (.ok ⟨"q0", 4⟩) .abort "X" ["m1"] true
    (.ok ()) (.ok ()) 0 (by decide)

/-- C3 counterexample: with zero resolved ids (5 tagged songs, user
confirms, no existing playlists) the run does not abort — it completes
and issues a playlist-creation call (a mutation) with the empty id
list. -/
theorem zero_resolved_still_mutates :
    (mainAfterResolution 5 [] false (some true) (.ok []) (.ok ⟨"d", 0⟩) .none "MyList" false
        (.ok ()) (.ok ()) 0
      = ([Action.createPlaylist "MyList" [] false], .completed))
    ∧ Action.createPlaylist "MyList" [] false
        ∈ (mainAfterResolution 5 [] false (some true) (.ok []) (.ok ⟨"d", 0⟩) .none "MyList"
            false (.ok ()) (.ok ()) 0).1 := by
  constructor <;> decide

/-- C3 amended: when the resolution stage produces zero catalog
identifiers the run does not abort: provided some songs were tagged, the
prompt is skipped or confirmed and no duplicate exists, it proceeds to
reconciliation and performs the playlist mutation with the empty id
list. -/
theorem zero_resolved_run_proceeds (number_of_tagged_songs : Nat)
    (current_playlists : List ExistingPlaylist)
    (detailResult : Except String FullExistingPlaylist) (duplicate_action : DuplicateAction)
    (playlist_name : String) (isPublic : Bool) (deleteResult insertResult : Except String Unit)
    (fuel : Nat) (htagged : 0 < number_of_tagged_songs)
    (hno : ∀ p ∈ current_playlists, p.title ≠ playlist_name) :
    mainAfterResolution number_of_tagged_songs [] true Option.none (.ok current_playlists)
        detailResult duplicate_action playlist_name isPublic deleteResult insertResult fuel
      = ([Action.createPlaylist playlist_name [] isPublic], .completed) := by
  have htq : ((number_of_tagged_songs : Nat) : ℚ) ≠ 0 := by
    exact_mod_cast htagged.ne'
  have hrec := no_exact_title_match_always_creates current_playlists detailResult
    duplicate_action playlist_name [] isPublic deleteResult insertResult fuel hno
  simp [mainAfterResolution, calculate_percentage, usize_to_f64, htq, hrec]

/-- Witness for C3's amended theorem: 5 tagged songs, zero resolved ids,
no existing playlists — the run creates the empty playlist. -/
theorem zero_resolved_run_proceeds_witness :
    mainAfterResolution 5 [] true Option.none (.ok []) (.ok ⟨"d", 0⟩) .overwrite "MyList" false
        (.ok ()) (.ok ()) 0
      = ([Action.createPlaylist "MyList" [] false], .completed) :=
  zero_resolved_run_proceeds 5 [] (.ok ⟨"d", 0⟩) .overwrite "MyList" false (.ok ()) (.ok ()) 0
    (by decide) (by decide)

end Theorems

end ListenBrainzUploader
